import Mathlib

/-!
Shallow embedding of `evalscope/backend/rag_eval/utils/embedding.py`.

The module dispatches between three embedding adapters (a local
sentence-transformer bi-encoder, a local cross-encoder, a remote OpenAI-style
embedding API) behind one interface.  External collaborators (the
sentence-transformers runtime, the cross-encoder runtime, the OpenAI client,
`os.path.exists`, `download_model`) are modelled as function parameters with
the narrow contracts the spec gives them; the adapter and factory logic itself
is translated from the source.
-/

namespace Evalscope

/-- Python scalar values that appear in the option dictionaries of this module. -/
inductive PyVal where
  | bool (b : Bool)
  | int (n : Int)
  | str (s : String)
  | noneVal
deriving DecidableEq

/-- Python `dict` with string keys, modelled as an association list in insertion
order (as Python dicts preserve insertion order). -/
abbrev Dict := List (String × PyVal)

/-- Python `d[k]` lookup returning `none` when the key is absent
(models `dict.get`). -/
def dictGet : Dict → String → Option PyVal
  | [], _ => Option.none
  | p :: tl, k => if p.1 = k then Option.some p.2 else dictGet tl k

/-- Python `d[k] = v`: replace the binding in place if the key is present,
otherwise append it. -/
def dictSet : Dict → String → PyVal → Dict
  | [], k, v => [(k, v)]
  | p :: tl, k, v => if p.1 = k then (k, v) :: tl else p :: dictSet tl k v

/-- Python `d.update(other)`: assign every binding of `other` into `d`,
left to right. -/
def dictUpdate (d other : Dict) : Dict :=
  other.foldl (fun acc p => dictSet acc p.1 p.2) d

/-- Python `d.pop(k, default)` restricted to its effect on the dictionary:
remove the binding of `k` if present. -/
def dictPop (d : Dict) (k : String) : Dict :=
  d.filter (fun p => !(p.1 == k))

/-- Keys of a dictionary, in order. -/
def dictKeys (d : Dict) : List String := d.map (·.1)

/-- Python exceptions that the modelled code paths can raise. -/
inductive PyErr where
  | indexError
  | valueError
  | attributeError
  | typeError
deriving DecidableEq

/-- One corpus entry: either a raw string or a structured document record with
an optional `title` field and a required `text` field (the record shape given
in the spec for corpus entries). -/
inductive TextUnit where
  | str (s : String)
  | doc (title : Option String) (text : String)
deriving DecidableEq

/-- Python `docs['text'] if isinstance(docs, dict) else docs`: the text carried
by a unit (a raw string is its own text). -/
def TextUnit.text : TextUnit → String
  | .str s => s
  | .doc _ t => t

/-- Torch tensors produced by the modelled encode paths: one-dimensional
(single text) or two-dimensional (batch).  Embedding components are abstracted
as integers because they are produced only by the external model parameters. -/
inductive Tensor where
  | vec (v : List Int)
  | mat (m : List (List Int))
deriving DecidableEq

/-- Untyped Python value produced by `Tensor.tolist()`: a nested list of
numbers.  Needed because `embed_query` returns a flat list on one adapter and
a nested list on another, which plain typed lists cannot compare. -/
inductive PyObj where
  | num (n : Int)
  | lst (xs : List PyObj)

/-- Python `tensor.tolist()`. -/
def Tensor.tolist : Tensor → PyObj
  | .vec v => .lst (v.map PyObj.num)
  | .mat m => .lst (m.map fun r => PyObj.lst (r.map PyObj.num))

/-- Python subscript `o[i]` on a `tolist` result: fails with `IndexError` out
of range and with `TypeError` on a number. -/
def pyIndex (o : PyObj) (i : Nat) : Except PyErr PyObj :=
  match o with
  | .num _ => .error .typeError
  | .lst xs =>
    match xs.get? i with
    | Option.some x => .ok x
    | Option.none => .error .indexError

/-- State stored by `BaseModel.__init__` (lines 21-41 of the source). -/
structure BaseModelState where
  model_name_or_path : String
  max_seq_length : Nat
  prompt : String
  revision : Option String
  model_kwargs : Dict
  config_kwargs : Dict
  encode_kwargs : Dict
deriving DecidableEq

/-- Keyword-argument bag accepted by `EmbeddingModel.load` and forwarded to the
adapter constructors.  Each field is `Option`al to model presence or absence of
the key; keys this module never reads are absorbed and ignored by
`BaseModel.__init__`'s `**kwargs`, so they are not modelled. -/
structure Kwargs where
  model_name : Option String := Option.none
  api_base : Option String := Option.none
  api_key : Option String := Option.none
  dimensions : Option Int := Option.none
  pooling_mode : Option String := Option.none
  max_seq_length : Option Nat := Option.none
  prompt : Option String := Option.none
  model_kwargs : Option Dict := Option.none
  config_kwargs : Option Dict := Option.none
  encode_kwargs : Option Dict := Option.none
deriving DecidableEq

/-- Source lines 21-41, `BaseModel.__init__`: store the identifier and limits,
pop the three option groups (defaulting each to an empty dict), and force
`trust_remote_code=True` into the model and config groups and
`convert_to_tensor=True` into the encode group.  `revision` is
`Option (Option String)` to distinguish a caller that passed the keyword from
one that relied on the Python default `'master'`. -/
def BaseModel.init (model_name_or_path : String) (max_seq_length : Option Nat)
    (prompt : Option String) (revision : Option (Option String))
    (model_kwargs config_kwargs encode_kwargs : Option Dict) : BaseModelState :=
  { model_name_or_path := model_name_or_path
    max_seq_length := max_seq_length.getD 512
    prompt := prompt.getD ""
    revision := revision.getD (Option.some "master")
    model_kwargs := dictSet (model_kwargs.getD []) "trust_remote_code" (.bool true)
    config_kwargs := dictSet (config_kwargs.getD []) "trust_remote_code" (.bool true)
    encode_kwargs := dictSet (encode_kwargs.getD []) "convert_to_tensor" (.bool true) }

/-- Record of how the underlying `SentenceTransformer` was built (source lines
95-111): either directly from the path, or as a Transformer module feeding a
Pooling module with the given pooling mode. -/
inductive STCtor where
  | direct (path : String) (config_kwargs model_kwargs : Dict)
  | pooled (path : String) (config_args model_args : Dict) (pooling_mode : String)
deriving DecidableEq

/-- State of a constructed `SentenceTransformerModel`. -/
structure SentenceTransformerState where
  base : BaseModelState
  modelCtor : STCtor
  modelMaxSeqLength : Nat
deriving DecidableEq

/-- Source lines 92-113, `SentenceTransformerModel.__init__`.  `pooling_mode`
is tested with Python truthiness (`if not pooling_mode`), so an absent key and
an empty string both take the direct construction path.  `revision` is the
keyword `load` passes explicitly. -/
def SentenceTransformerModel.init (model_name_or_path : String)
    (revision : Option String) (kwargs : Kwargs) : SentenceTransformerState :=
  let base := BaseModel.init model_name_or_path kwargs.max_seq_length kwargs.prompt
    (Option.some revision) kwargs.model_kwargs kwargs.config_kwargs kwargs.encode_kwargs
  let ctor :=
    if kwargs.pooling_mode.getD "" = "" then
      STCtor.direct base.model_name_or_path base.config_kwargs base.model_kwargs
    else
      STCtor.pooled base.model_name_or_path base.config_kwargs base.model_kwargs
        (kwargs.pooling_mode.getD "")
  { base := base, modelCtor := ctor, modelMaxSeqLength := base.max_seq_length }

/-- State of a constructed `CrossEncoderModel`: the base state plus the
arguments recorded for the external `CrossEncoder(path, trust_remote_code=True,
max_length=max_seq_length)` construction (source lines 136-142). -/
structure CrossEncoderState where
  base : BaseModelState
  modelCtorPath : String
  modelCtorMaxLength : Nat
deriving DecidableEq

/-- Source lines 136-142, `CrossEncoderModel.__init__`. -/
def CrossEncoderModel.init (model_name_or_path : String) (revision : Option String)
    (kwargs : Kwargs) : CrossEncoderState :=
  let base := BaseModel.init model_name_or_path kwargs.max_seq_length kwargs.prompt
    (Option.some revision) kwargs.model_kwargs kwargs.config_kwargs kwargs.encode_kwargs
  { base := base, modelCtorPath := base.model_name_or_path
    modelCtorMaxLength := base.max_seq_length }

/-- State of a constructed `APIEmbeddingModel` (source lines 161-176): the
remote-client construction arguments, the base state (note the base is
initialised with the remote model name as identifier and without a `revision`
keyword, so the base keeps the default revision), and the batch size read from
the encode options with default 10.  Values of `batch_size` other than an
integer are not modelled (Python would fail at the first `range` call). -/
structure APIEmbeddingState where
  model_name : Option String
  openai_api_base : Option String
  openai_api_key : Option String
  dimensions : Option Int
  base : BaseModelState
  batch_size : Int
deriving DecidableEq

/-- Source lines 161-176, `APIEmbeddingModel.__init__`. -/
def APIEmbeddingModel.init (kwargs : Kwargs) : APIEmbeddingState :=
  let base := BaseModel.init (kwargs.model_name.getD "") kwargs.max_seq_length
    kwargs.prompt Option.none kwargs.model_kwargs kwargs.config_kwargs kwargs.encode_kwargs
  { model_name := kwargs.model_name
    openai_api_base := kwargs.api_base
    openai_api_key := kwargs.api_key
    dimensions := kwargs.dimensions
    base := base
    batch_size :=
      match dictGet base.encode_kwargs "batch_size" with
      | Option.some (.int n) => n
      | _ => 10 }

/-- Adapter returned by the factory: exactly one of the three variants. -/
inductive Adapter where
  | api (st : APIEmbeddingState)
  | cross (st : CrossEncoderState)
  | st (st : SentenceTransformerState)
deriving DecidableEq

/-- Identifier stored on whichever adapter the factory built. -/
def Adapter.model_name_or_path : Adapter → String
  | .api a => a.base.model_name_or_path
  | .cross a => a.base.model_name_or_path
  | .st a => a.base.model_name_or_path

/-- Modelled from the spec: the specific download-capable hub provider constant
(`HubType.MODELSCOPE` from `evalscope.constants`, which is not under `src/`);
the source comment at line 214 names it `'modelscope'`. -/
def HubType.MODELSCOPE : String := "modelscope"

/-- Python truthiness of `kwargs.get('model_name')`: present and non-empty. -/
def truthy : Option String → Bool
  | Option.some s => !(s == "")
  | Option.none => false

/-- Source lines 202-230, `EmbeddingModel.load`.  `pathExists` models
`os.path.exists` and `download_model` models the external download-and-cache
collaborator (`download(identifier, revision) -> local_path`, spec section 6).
The second component of the result records every invocation of
`download_model` with its arguments, in order. -/
def EmbeddingModel.load (pathExists : String → Bool)
    (download_model : String → Option String → String)
    (model_name_or_path : String) (is_cross_encoder : Bool) (hub : String)
    (revision : Option String) (kwargs : Kwargs) :
    Adapter × List (String × Option String) :=
  if truthy kwargs.model_name then
    (Adapter.api (APIEmbeddingModel.init kwargs), [])
  else
    let resolved : String × List (String × Option String) :=
      if !(pathExists model_name_or_path) && (hub == HubType.MODELSCOPE) then
        (download_model model_name_or_path revision, [(model_name_or_path, revision)])
      else
        (model_name_or_path, [])
    if is_cross_encoder then
      (Adapter.cross (CrossEncoderModel.init resolved.1 revision kwargs), resolved.2)
    else
      (Adapter.st (SentenceTransformerModel.init resolved.1 revision kwargs), resolved.2)

/-- Texts argument of the encode methods: Python passes either one string or a
list (of strings, or of structured records when a corpus flows in unchanged). -/
inductive TextsInput where
  | single (s : String)
  | batch (ts : List TextUnit)
deriving DecidableEq

/-- Embedding of one list member by the external sentence-transformer runtime:
the per-text model `f` applied to the prompt-prefixed text; a non-string member
is outside the runtime's batch-encode contract and modelled as `TypeError`. -/
def localEmbedUnit (f : String → List Int) (p : String) : TextUnit → Except PyErr (List Int)
  | .str s => .ok (f (p ++ s))
  | .doc _ _ => .error PyErr.typeError

/-- Source lines 115-121, `SentenceTransformerModel.encode`.  The external
`SentenceTransformer.encode` runtime is modelled by the deterministic per-text
embedding `f` applied to the prompt-prefixed text (the runtime prepends the
prompt argument to every input and embeds the result; with a `None` prompt it
embeds the text itself, which coincides with prepending the empty string).  A
single string input yields a one-dimensional tensor, a list a two-dimensional
one; non-string members of a list are outside the runtime's batch-encode
contract and are modelled as a `TypeError`.  The method pops `prompt_name`
from the call options, merges the rest into the stored encode options, and
`.cpu().detach()` leaves the value unchanged.  The result is returned together
with the mutated adapter state. -/
def SentenceTransformerModel.encode (f : String → List Int) (st : BaseModelState)
    (texts : TextsInput) (prompt : Option String) (kwargs : Dict) :
    Except PyErr Tensor × BaseModelState :=
  let st' := { st with
    encode_kwargs := dictUpdate st.encode_kwargs (dictPop kwargs "prompt_name") }
  let p := prompt.getD ""
  let value : Except PyErr Tensor :=
    match texts with
    | .single s => .ok (Tensor.vec (f (p ++ s)))
    | .batch ts => (ts.mapM (localEmbedUnit f p)).map Tensor.mat
  (value, st')

/-- Source lines 123-124, `SentenceTransformerModel.encode_queries`: delegate
to `encode` with the adapter's configured prompt; the method's own extra
keyword options are dropped. -/
def SentenceTransformerModel.encode_queries (f : String → List Int)
    (st : BaseModelState) (queries : TextsInput) (_kwargs : Dict) :
    Except PyErr Tensor × BaseModelState :=
  SentenceTransformerModel.encode f st queries (Option.some st.prompt) []

/-- Python `str.strip()`: remove leading and trailing whitespace.  Defined
structurally over the character list so that it evaluates by reduction. -/
def pyStrip (s : String) : String :=
  String.mk (((s.data.dropWhile Char.isWhitespace).reverse.dropWhile
    Char.isWhitespace).reverse)

/-- Python `'\x7b\x7d \x7b\x7d'.format(doc.get('title', ''), doc['text']).strip()`
(source lines 128 and 193): join title and text with a space and strip
surrounding whitespace. -/
def formatDoc (title : Option String) (text : String) : String :=
  pyStrip (title.getD "" ++ " " ++ text)

/-- Python comprehension body of the corpus branch: a structured record is
normalised to its formatted string; a plain string in the same comprehension
would hit `doc.get` and raise `AttributeError`. -/
def normalizeDoc : TextUnit → Except PyErr TextUnit
  | .doc title text => .ok (.str (formatDoc title text))
  | .str _ => .error PyErr.attributeError

/-- Source lines 126-131, `SentenceTransformerModel.encode_corpus`: inspect
`corpus[0]` (an empty corpus raises `IndexError`); if it is a record, normalise
every entry with `normalizeDoc`, otherwise pass the corpus through unchanged;
then delegate to `encode` with no prompt and no extra options. -/
def SentenceTransformerModel.encode_corpus (f : String → List Int)
    (st : BaseModelState) (corpus : List TextUnit) (_kwargs : Dict) :
    Except PyErr Tensor × BaseModelState :=
  match corpus with
  | [] => (.error .indexError, st)
  | c :: _ =>
    match c with
    | .doc _ _ =>
      match corpus.mapM normalizeDoc with
      | .error e => (.error e, st)
      | .ok input_texts =>
        SentenceTransformerModel.encode f st (.batch input_texts) Option.none []
    | .str _ => SentenceTransformerModel.encode f st (.batch corpus) Option.none []

/-- Source lines 55-64, `BaseModel.embed_documents` as inherited by the
bi-encoder: `encode_corpus(texts).tolist()`. -/
def SentenceTransformerModel.embed_documents (f : String → List Int)
    (st : BaseModelState) (texts : List String) : Except PyErr PyObj :=
  (SentenceTransformerModel.encode_corpus f st (texts.map TextUnit.str) []).1.map
    Tensor.tolist

/-- Source lines 66-75, `BaseModel.embed_query` as inherited by the bi-encoder:
`encode_queries(text).tolist()` on the single text. -/
def SentenceTransformerModel.embed_query (f : String → List Int)
    (st : BaseModelState) (text : String) : Except PyErr PyObj :=
  (SentenceTransformerModel.encode_queries f st (.single text) []).1.map Tensor.tolist

/-- Unpacking and rewriting of one element in the triple branch of
`CrossEncoderModel.predict` (source lines 149-152): `query, docs, instruction`
unpacking fails on any other arity; `self.prompt + query` needs a string query;
a record document is replaced by its `text` field. -/
def CrossEncoderModel.processTriple (prompt : String) :
    List TextUnit → Except PyErr (List TextUnit)
  | [q, docs, _instruction] =>
    match q with
    | .str qs => .ok [TextUnit.str (prompt ++ qs), TextUnit.str docs.text]
    | .doc _ _ => .error PyErr.typeError
  | _ => .error PyErr.valueError

/-- Source lines 144-156, `CrossEncoderModel.predict`.  The method first merges
the call options into the stored encode options, then inspects
`len(sentences[0])` (an empty list raises `IndexError` there, after the
merge); when the first element has exactly three members every element is
rewritten with `processTriple`, otherwise the list passes through unchanged.
The first component of the result is the sentence list handed to the external
cross-encoder's `predict`; the scores it would return are outside this
module. -/
def CrossEncoderModel.predict (st : BaseModelState)
    (sentences : List (List TextUnit)) (kwargs : Dict) :
    Except PyErr (List (List TextUnit)) × BaseModelState :=
  let st' := { st with encode_kwargs := dictUpdate st.encode_kwargs kwargs }
  let value : Except PyErr (List (List TextUnit)) :=
    match sentences with
    | [] => .error .indexError
    | s :: _ =>
      if s.length = 3 then sentences.mapM (CrossEncoderModel.processTriple st.prompt)
      else .ok sentences
  (value, st')

/-- Python slice `l[i : i + n]`. -/
def pySlice (l : List α) (i n : Nat) : List α :=
  (l.drop i).take n

/-- Input contract of the external remote client: list members must be
strings; a structured record reaching the client is modelled as `TypeError`. -/
def remoteText : TextUnit → Except PyErr String
  | .str s => .ok s
  | .doc _ _ => .error PyErr.typeError

/-- Source lines 178-186, `APIEmbeddingModel.encode`.  `client` models the
external remote client's `embed_documents(chunk, chunk_size)` batch-embed
operation, returning one vector per chunk text.  A single string is normalised
to a one-element list; list members must be strings (the remote client's
contract), else a `TypeError` is modelled.  The loop
`for i in range(0, len(texts), batch_size)` is modelled by the index list
`List.range' 0 ceil(N/b) b = [0, b, 2b, ...]`; Python's `range` raises
`ValueError` on a zero step and yields nothing on a negative step.  The middle
component of the result records every client invocation `(chunk, chunk_size)`
in order; the accumulated per-text vectors are stacked into one tensor. -/
def APIEmbeddingModel.encode (client : List String → Nat → List (List Int))
    (st : APIEmbeddingState) (texts : TextsInput) (_kwargs : Dict) :
    (Except PyErr Tensor × List (List String × Nat)) × APIEmbeddingState :=
  let tsE : Except PyErr (List String) :=
    match texts with
    | .single s => .ok [s]
    | .batch us => us.mapM remoteText
  match tsE with
  | .error e => ((.error e, []), st)
  | .ok l =>
    if st.batch_size = 0 then ((.error .valueError, []), st)
    else if st.batch_size < 0 then ((.ok (Tensor.mat []), []), st)
    else
      let b := st.batch_size.toNat
      let idxs := List.range' 0 ((l.length + b - 1) / b) b
      let calls := idxs.map fun i => (pySlice l i b, b)
      let embeddings := (idxs.map fun i => client (pySlice l i b) b).flatten
      ((.ok (Tensor.mat embeddings), calls), st)

/-- Source lines 188-189, `APIEmbeddingModel.encode_queries`: delegate to
`encode` unchanged (in particular the configured prompt is never applied). -/
def APIEmbeddingModel.encode_queries (client : List String → Nat → List (List Int))
    (st : APIEmbeddingState) (queries : TextsInput) (kwargs : Dict) :
    (Except PyErr Tensor × List (List String × Nat)) × APIEmbeddingState :=
  APIEmbeddingModel.encode client st queries kwargs

/-- Source lines 191-196, `APIEmbeddingModel.encode_corpus`: same first-element
dispatch and record normalisation as the bi-encoder's corpus path, then
delegate to `encode`. -/
def APIEmbeddingModel.encode_corpus (client : List String → Nat → List (List Int))
    (st : APIEmbeddingState) (corpus : List TextUnit) (kwargs : Dict) :
    (Except PyErr Tensor × List (List String × Nat)) × APIEmbeddingState :=
  match corpus with
  | [] => ((.error .indexError, []), st)
  | c :: _ =>
    match c with
    | .doc _ _ =>
      match corpus.mapM normalizeDoc with
      | .error e => ((.error e, []), st)
      | .ok input_texts => APIEmbeddingModel.encode client st (.batch input_texts) kwargs
    | .str _ => APIEmbeddingModel.encode client st (.batch corpus) kwargs

/-- Source lines 55-64, `BaseModel.embed_documents` as inherited by the remote
adapter: `encode_corpus(texts).tolist()`. -/
def APIEmbeddingModel.embed_documents (client : List String → Nat → List (List Int))
    (st : APIEmbeddingState) (texts : List String) : Except PyErr PyObj :=
  ((APIEmbeddingModel.encode_corpus client st (texts.map TextUnit.str) []).1.1).map
    Tensor.tolist

/-- Source lines 66-75, `BaseModel.embed_query` as inherited by the remote
adapter: `encode_queries(text).tolist()` on the single text. -/
def APIEmbeddingModel.embed_query (client : List String → Nat → List (List Int))
    (st : APIEmbeddingState) (text : String) : Except PyErr PyObj :=
  ((APIEmbeddingModel.encode_queries client st (.single text) []).1.1).map Tensor.tolist

/-! Dictionary lemmas. -/

theorem dictGet_dictSet_self (d : Dict) (k : String) (v : PyVal) :
    dictGet (dictSet d k v) k = Option.some v := by
  induction d with
  | nil => simp [dictSet, dictGet]
  | cons p tl ih =>
    by_cases h : p.1 = k
    · simp [dictSet, dictGet, h]
    · simp [dictSet, dictGet, h, ih]

theorem dictGet_dictSet_other (d : Dict) (a k : String) (v : PyVal) (h : a ≠ k) :
    dictGet (dictSet d a v) k = dictGet d k := by
  induction d with
  | nil => simp [dictSet, dictGet, h]
  | cons p tl ih =>
    by_cases hp : p.1 = a
    · simp [dictSet, dictGet, hp, h]
    · by_cases hk : p.1 = k
      · simp [dictSet, dictGet, hp, hk, Ne.symm h]
      · simp [dictSet, dictGet, hp, hk, ih]

theorem dictUpdate_cons (d : Dict) (p : String × PyVal) (tl : Dict) :
    dictUpdate d (p :: tl) = dictUpdate (dictSet d p.1 p.2) tl := rfl

theorem dictGet_dictUpdate_not_mem (ex : Dict) (k : String) (h : k ∉ dictKeys ex) :
    ∀ d : Dict, dictGet (dictUpdate d ex) k = dictGet d k := by
  induction ex with
  | nil => intro d; rfl
  | cons p tl ih =>
    intro d
    simp only [dictKeys, List.map_cons, List.mem_cons] at h
    push_neg at h
    rw [dictUpdate_cons, ih (by simpa [dictKeys] using h.2),
      dictGet_dictSet_other _ _ _ _ (fun hh => h.1 hh.symm)]

theorem dictGet_dictUpdate_mem (ex : Dict) (k : String) (v : PyVal)
    (hnd : (dictKeys ex).Nodup) (hget : dictGet ex k = Option.some v) :
    ∀ d : Dict, dictGet (dictUpdate d ex) k = Option.some v := by
  induction ex with
  | nil => intro d; simp [dictGet] at hget
  | cons p tl ih =>
    intro d
    simp only [dictKeys, List.map_cons, List.nodup_cons] at hnd
    rw [dictUpdate_cons]
    by_cases h : p.1 = k
    · subst h
      simp only [dictGet, if_pos rfl] at hget
      cases hget
      rw [dictGet_dictUpdate_not_mem tl p.1 (by simpa [dictKeys] using hnd.1),
        dictGet_dictSet_self]
    · simp only [dictGet, if_neg h] at hget
      exact ih hnd.2 hget _

/-! Shared concrete fixtures used by witnesses and counterexamples. -/

/-- Sample deterministic per-text model: embeds a text as its length. -/
def sampleF : String → List Int := fun s => [(s.length : Int)]

/-- Sample remote client: embeds each chunk text independently with `sampleF`
(ignoring the chunk-size hint). -/
def sampleClient : List String → Nat → List (List Int) := fun c _ => c.map sampleF

/-- Sample base adapter state with an empty prompt. -/
def sampleBase : BaseModelState :=
  { model_name_or_path := "m", max_seq_length := 512, prompt := "",
    revision := Option.some "master", model_kwargs := [], config_kwargs := [],
    encode_kwargs := [] }

/-- Sample remote-adapter state with batch size 2. -/
def sampleApi : APIEmbeddingState :=
  { model_name := Option.some "mn", openai_api_base := Option.none,
    openai_api_key := Option.none, dimensions := Option.none, base := sampleBase,
    batch_size := 2 }

/-! Claims. -/

/-- C7: after construction of any adapter (all three variants run
`BaseModel.__init__`), the stored model-construction and config-construction
option groups each contain `trust_remote_code = True` and the stored
encode-time option group contains `convert_to_tensor = True`, for every
caller-supplied combination of option groups (the forced flags overwrite any
caller-supplied value for those keys). -/
theorem C7_init_forced_flags :
    ∀ (path : String) (revision : Option String) (kwargs : Kwargs),
      (dictGet (SentenceTransformerModel.init path revision kwargs).base.model_kwargs
          "trust_remote_code" = Option.some (PyVal.bool true)
        ∧ dictGet (SentenceTransformerModel.init path revision kwargs).base.config_kwargs
          "trust_remote_code" = Option.some (PyVal.bool true)
        ∧ dictGet (SentenceTransformerModel.init path revision kwargs).base.encode_kwargs
          "convert_to_tensor" = Option.some (PyVal.bool true))
      ∧ (dictGet (CrossEncoderModel.init path revision kwargs).base.model_kwargs
          "trust_remote_code" = Option.some (PyVal.bool true)
        ∧ dictGet (CrossEncoderModel.init path revision kwargs).base.config_kwargs
          "trust_remote_code" = Option.some (PyVal.bool true)
        ∧ dictGet (CrossEncoderModel.init path revision kwargs).base.encode_kwargs
          "convert_to_tensor" = Option.some (PyVal.bool true))
      ∧ (dictGet (APIEmbeddingModel.init kwargs).base.model_kwargs
          "trust_remote_code" = Option.some (PyVal.bool true)
        ∧ dictGet (APIEmbeddingModel.init kwargs).base.config_kwargs
          "trust_remote_code" = Option.some (PyVal.bool true)
        ∧ dictGet (APIEmbeddingModel.init kwargs).base.encode_kwargs
          "convert_to_tensor" = Option.some (PyVal.bool true)) := by
  intro path revision kwargs
  refine ⟨⟨?_, ?_, ?_⟩, ⟨?_, ?_, ?_⟩, ?_, ?_, ?_⟩ <;>
    simp [SentenceTransformerModel.init, CrossEncoderModel.init,
      APIEmbeddingModel.init, BaseModel.init, dictGet_dictSet_self]

/-- C1: for every call to `EmbeddingModel.load` whose option bag supplies a
truthy remote model name `model_name`, the result is an `APIEmbeddingModel`
and never a `SentenceTransformerModel` or `CrossEncoderModel`, regardless of
the local path, the cross-encoder flag, and the hub value (and the download
collaborator is never invoked). -/
theorem C1_load_model_name_precedence :
    ∀ (pathExists : String → Bool) (download_model : String → Option String → String)
      (model_name_or_path : String) (is_cross_encoder : Bool) (hub : String)
      (revision : Option String) (kwargs : Kwargs),
      truthy kwargs.model_name = true →
      EmbeddingModel.load pathExists download_model model_name_or_path
          is_cross_encoder hub revision kwargs
        = (Adapter.api (APIEmbeddingModel.init kwargs), []) := by
  intro pathExists download_model model_name_or_path is_cross_encoder hub revision kwargs h
  simp [EmbeddingModel.load, h]

/-- Witness for C1 at a concrete input: a remote model name together with a
local path, the cross-encoder flag set, and a non-default hub. -/
theorem C1_witness :
    truthy (Kwargs.model_name { model_name := Option.some "text-embedding-v1" }) = true
    ∧ EmbeddingModel.load (fun _ => true) (fun p _ => p) "/models/bge" true
        "huggingface" (Option.some "v2") { model_name := Option.some "text-embedding-v1" }
      = (Adapter.api (APIEmbeddingModel.init { model_name := Option.some "text-embedding-v1" }), []) :=
  ⟨by decide, C1_load_model_name_precedence _ _ _ _ _ _ _ (by decide)⟩

/-- C2: in `EmbeddingModel.load` with no (truthy) remote model name, if the
path does not exist and the hub equals the ModelScope provider, the download
collaborator is invoked exactly once (with the original identifier and
revision) before adapter construction and its result replaces the identifier
stored on the constructed adapter; if the path does not exist and the hub is
any other provider, the download collaborator is never invoked and the
original identifier is stored unchanged. -/
theorem C2_load_download_trigger :
    ∀ (pathExists : String → Bool) (download_model : String → Option String → String)
      (path : String) (is_cross_encoder : Bool) (hub : String)
      (revision : Option String) (kwargs : Kwargs),
      truthy kwargs.model_name = false →
      pathExists path = false →
      ((hub = HubType.MODELSCOPE →
          (EmbeddingModel.load pathExists download_model path is_cross_encoder hub
              revision kwargs).2 = [(path, revision)]
          ∧ (EmbeddingModel.load pathExists download_model path is_cross_encoder hub
              revision kwargs).1.model_name_or_path = download_model path revision)
      ∧ (hub ≠ HubType.MODELSCOPE →
          (EmbeddingModel.load pathExists download_model path is_cross_encoder hub
              revision kwargs).2 = []
          ∧ (EmbeddingModel.load pathExists download_model path is_cross_encoder hub
              revision kwargs).1.model_name_or_path = path)) := by
  intro pathExists download_model path is_cross_encoder hub revision kwargs hm hp
  constructor
  · intro hhub
    subst hhub
    cases is_cross_encoder <;>
      simp [EmbeddingModel.load, hm, hp, Adapter.model_name_or_path,
        CrossEncoderModel.init, SentenceTransformerModel.init, BaseModel.init]
  · intro hhub
    have hb : (hub == HubType.MODELSCOPE) = false := by
      simpa using hhub
    cases is_cross_encoder <;>
      simp [EmbeddingModel.load, hm, hp, hb, Adapter.model_name_or_path,
        CrossEncoderModel.init, SentenceTransformerModel.init, BaseModel.init]

/-- Witness for C2 at concrete inputs: with hub `modelscope` the download
record has exactly one entry and the downloaded path is stored; with hub
`huggingface` no download happens and the identifier is unchanged. -/
theorem C2_witness :
    ((EmbeddingModel.load (fun _ => false) (fun p _ => p ++ "-local") "mm" false
        "modelscope" (Option.some "m") {}).2 = [("mm", Option.some "m")]
      ∧ (EmbeddingModel.load (fun _ => false) (fun p _ => p ++ "-local") "mm" false
        "modelscope" (Option.some "m") {}).1.model_name_or_path = "mm-local")
    ∧ ((EmbeddingModel.load (fun _ => false) (fun p _ => p ++ "-local") "mm" false
        "huggingface" (Option.some "m") {}).2 = []
      ∧ (EmbeddingModel.load (fun _ => false) (fun p _ => p ++ "-local") "mm" false
        "huggingface" (Option.some "m") {}).1.model_name_or_path = "mm") :=
  ⟨(C2_load_download_trigger _ _ _ _ _ _ _ (by decide) rfl).1 rfl,
   (C2_load_download_trigger _ _ _ _ _ _ _ (by decide) rfl).2 (by decide)⟩

/-- Counterexample to C8 as stated: with an empty local path identifier and no
remote model name, `EmbeddingModel.load` does not fail with a configuration
error — it constructs and returns a local adapter, deferring all failure to
the external collaborators (here instantiated with total stubs): with the
ModelScope hub the empty identifier is simply handed to the download
collaborator, and with another hub it is handed to the local model
constructor unchanged. -/
theorem C8_counterexample :
    EmbeddingModel.load (fun _ => false) (fun _ _ => "/cache/stub") ""
        false HubType.MODELSCOPE (Option.some "master") {}
      = (Adapter.st (SentenceTransformerModel.init "/cache/stub" (Option.some "master") {}),
          [("", Option.some "master")])
    ∧ EmbeddingModel.load (fun _ => false) (fun p _ => p) "" false "huggingface"
        (Option.some "master") {}
      = (Adapter.st (SentenceTransformerModel.init "" (Option.some "master") {}), []) :=
  ⟨rfl, rfl⟩

/-- C8 as amended: `EmbeddingModel.load` performs no configuration-error check
of its own.  With an empty path identifier and no remote model name it never
returns the remote adapter; with the ModelScope hub it passes the empty
identifier to the download collaborator (once, during load, hence before any
encode call) and stores whatever path that collaborator returns; with any
other hub it constructs the local adapter directly from the empty identifier.
Whether the call fails is decided entirely by the external download service or
local model constructor. -/
theorem C8_load_missing_identifier_defers :
    ∀ (pathExists : String → Bool) (download_model : String → Option String → String)
      (is_cross_encoder : Bool) (hub : String) (revision : Option String)
      (kwargs : Kwargs),
      truthy kwargs.model_name = false →
      ((∀ a, (EmbeddingModel.load pathExists download_model "" is_cross_encoder hub
          revision kwargs).1 ≠ Adapter.api a)
      ∧ (pathExists "" = false → hub = HubType.MODELSCOPE →
          (EmbeddingModel.load pathExists download_model "" is_cross_encoder hub
              revision kwargs).1.model_name_or_path = download_model "" revision
          ∧ (EmbeddingModel.load pathExists download_model "" is_cross_encoder hub
              revision kwargs).2 = [("", revision)])
      ∧ (hub ≠ HubType.MODELSCOPE →
          (EmbeddingModel.load pathExists download_model "" is_cross_encoder hub
              revision kwargs).1.model_name_or_path = ""
          ∧ (EmbeddingModel.load pathExists download_model "" is_cross_encoder hub
              revision kwargs).2 = [])) := by
  intro pathExists download_model is_cross_encoder hub revision kwargs hm
  refine ⟨?_, ?_, ?_⟩
  · intro a
    cases is_cross_encoder <;> simp [EmbeddingModel.load, hm]
  · intro hp hhub
    subst hhub
    cases is_cross_encoder <;>
      simp [EmbeddingModel.load, hm, hp, Adapter.model_name_or_path,
        CrossEncoderModel.init, SentenceTransformerModel.init, BaseModel.init]
  · intro hhub
    have hb : (hub == HubType.MODELSCOPE) = false := by simpa using hhub
    cases is_cross_encoder <;>
      simp [EmbeddingModel.load, hm, hb, Adapter.model_name_or_path,
        CrossEncoderModel.init, SentenceTransformerModel.init, BaseModel.init]

/-- Witness for the amended C8 at concrete inputs. -/
theorem C8_witness :
    (∀ a, (EmbeddingModel.load (fun _ => false) (fun _ _ => "/cache/stub") "" false
        HubType.MODELSCOPE (Option.some "master") {}).1 ≠ Adapter.api a)
    ∧ (EmbeddingModel.load (fun _ => false) (fun _ _ => "/cache/stub") "" false
        HubType.MODELSCOPE (Option.some "master") {}).1.model_name_or_path = "/cache/stub"
    ∧ (EmbeddingModel.load (fun _ => false) (fun _ _ => "/cache/stub") "" true
        "huggingface" (Option.some "master") {}).2 = [] :=
  ⟨(C8_load_missing_identifier_defers _ _ _ _ _ _ (by decide)).1,
   ((C8_load_missing_identifier_defers _ _ _ _ _ _ (by decide)).2.1 rfl rfl).1,
   ((C8_load_missing_identifier_defers _ _ _ _ _ _ (by decide)).2.2 (by decide)).2⟩

/-! Chunking lemmas for the remote adapter's batching loop. -/

theorem ceil_div_succ (L b : Nat) (hb : 1 ≤ b) (hL : 1 ≤ L) :
    (L + b - 1) / b = (L - b + b - 1) / b + 1 := by
  rcases le_or_lt b L with h | h
  · have he : L + b - 1 = L - b + b - 1 + b := by omega
    rw [he, Nat.add_div_right _ (by omega)]
  · have h0 : L - b + b - 1 < b := by omega
    have h1 : L + b - 1 = L - 1 + b := by omega
    rw [Nat.div_eq_of_lt h0, h1, Nat.add_div_right _ (by omega),
      Nat.div_eq_of_lt (show L - 1 < b by omega)]

theorem map_pySlice_shift {α : Type} (l : List α) (b : Nat) :
    ∀ (n s : Nat),
      ((List.range' (s + b) n b).map fun i => pySlice l i b)
        = (List.range' s n b).map fun i => pySlice (l.drop b) i b := by
  intro n
  induction n with
  | zero => intro s; simp
  | succ n ih =>
    intro s
    rw [List.range'_succ, List.range'_succ, List.map_cons, List.map_cons]
    congr 1
    · show pySlice l (s + b) b = pySlice (l.drop b) s b
      simp [pySlice, List.drop_drop, Nat.add_comm]
    · simpa using ih (s + b)

theorem slices_flatten {α : Type} (b : Nat) (hb : 1 ≤ b) :
    ∀ (n : Nat) (l : List α), n = (l.length + b - 1) / b →
      ((List.range' 0 n b).map fun i => pySlice l i b).flatten = l := by
  intro n
  induction n with
  | zero =>
    intro l hl
    have hlen : l.length = 0 := by
      by_contra hne
      have hL : 1 ≤ l.length := Nat.one_le_iff_ne_zero.mpr hne
      have : 1 ≤ (l.length + b - 1) / b :=
        (Nat.one_le_div_iff (by omega)).mpr (by omega)
      omega
    have : l = [] := List.length_eq_zero.mp hlen
    subst this
    simp
  | succ n ih =>
    intro l hl
    have hL : 1 ≤ l.length := by
      by_contra hc
      have h0 : l.length = 0 := by omega
      rw [h0] at hl
      have : (0 + b - 1) / b = 0 := Nat.div_eq_of_lt (by omega)
      omega
    have hn : n = ((l.drop b).length + b - 1) / b := by
      rw [List.length_drop]
      have := ceil_div_succ l.length b hb hL
      omega
    rw [List.range'_succ, List.map_cons, List.flatten_cons,
      map_pySlice_shift l b n 0, ih (l.drop b) hn]
    simp [pySlice, List.take_append_drop]

theorem pySlice_map {α β : Type} (g : α → β) (l : List α) (i n : Nat) :
    (pySlice l i n).map g = pySlice (l.map g) i n := by
  simp [pySlice, List.map_take, List.map_drop]

theorem mapM_remoteText_str (texts : List String) :
    (texts.map TextUnit.str).mapM remoteText = Except.ok texts := by
  induction texts with
  | nil => rfl
  | cons t ts ih => rw [List.map_cons, List.mapM_cons, ih]; rfl

theorem APIEmbeddingModel.encode_reduction
    (client : List String → Nat → List (List Int)) (st : APIEmbeddingState)
    (texts : List String) (kwargs : Dict) (b : Nat)
    (hb : st.batch_size = (b : Int)) (hb1 : 1 ≤ b) :
    APIEmbeddingModel.encode client st (.batch (texts.map TextUnit.str)) kwargs
      = ((Except.ok (Tensor.mat
            (((List.range' 0 ((texts.length + b - 1) / b) b).map
              fun i => client (pySlice texts i b) b).flatten)),
          (List.range' 0 ((texts.length + b - 1) / b) b).map
            fun i => (pySlice texts i b, b)), st) := by
  have hz : ¬ st.batch_size = 0 := by rw [hb]; omega
  have hneg : ¬ st.batch_size < 0 := by rw [hb]; omega
  have ht : st.batch_size.toNat = b := by rw [hb]; exact Int.toNat_natCast b
  simp only [APIEmbeddingModel.encode, mapM_remoteText_str, if_neg hz, if_neg hneg,
    ht, List.length_map]

/-- C3: for `APIEmbeddingModel.encode` with batch size `b` and an input list
of `N` texts, the remote client's batch-embed operation is called exactly
`ceil(N/b)` times, on the contiguous slices `texts[0:b], texts[b:2b], ...`
(each call receiving the batch size as the chunk-size hint), and the per-text
vectors returned by each call are appended in chunk order, so the stacked
output preserves input order when the client embeds each text independently;
in particular, with `b = 2` and `N = 5` exactly 3 calls occur with chunk
boundaries `[0:2]`, `[2:4]`, `[4:5]`. -/
theorem C3_api_encode_batching :
    (∀ (client : List String → Nat → List (List Int)) (st : APIEmbeddingState)
        (texts : List String) (kwargs : Dict) (b : Nat),
      st.batch_size = (b : Int) → 1 ≤ b →
      ((APIEmbeddingModel.encode client st (.batch (texts.map TextUnit.str)) kwargs).1.2
          = (List.range' 0 ((texts.length + b - 1) / b) b).map fun i => (pySlice texts i b, b))
      ∧ (APIEmbeddingModel.encode client st (.batch (texts.map TextUnit.str)) kwargs).1.2.length
          = (texts.length + b - 1) / b
      ∧ (APIEmbeddingModel.encode client st (.batch (texts.map TextUnit.str)) kwargs).1.1
          = Except.ok (Tensor.mat
              (((List.range' 0 ((texts.length + b - 1) / b) b).map
                fun i => client (pySlice texts i b) b).flatten))
      ∧ (∀ g : String → List Int, (∀ c n, client c n = c.map g) →
          (APIEmbeddingModel.encode client st (.batch (texts.map TextUnit.str)) kwargs).1.1
            = Except.ok (Tensor.mat (texts.map g)))
      ∧ (APIEmbeddingModel.encode client st (.batch (texts.map TextUnit.str)) kwargs).2 = st)
    ∧ (∀ (client : List String → Nat → List (List Int)) (st : APIEmbeddingState)
        (kwargs : Dict) (t0 t1 t2 t3 t4 : String),
        st.batch_size = 2 →
        (APIEmbeddingModel.encode client st
            (.batch ([t0, t1, t2, t3, t4].map TextUnit.str)) kwargs).1.2
          = [([t0, t1], 2), ([t2, t3], 2), ([t4], 2)]) := by
  constructor
  · intro client st texts kwargs b hb hb1
    rw [APIEmbeddingModel.encode_reduction client st texts kwargs b hb hb1]
    refine ⟨rfl, ?_, rfl, ?_, rfl⟩
    · simp [List.length_map, List.length_range']
    · intro g hg
      have hfl : ((List.range' 0 ((texts.length + b - 1) / b) b).map
          fun i => client (pySlice texts i b) b).flatten = texts.map g := by
        have hrw : (List.range' 0 ((texts.length + b - 1) / b) b).map
            (fun i => client (pySlice texts i b) b)
            = (List.range' 0 (((texts.map g).length + b - 1) / b) b).map
              fun i => pySlice (texts.map g) i b := by
          rw [List.length_map]
          refine List.map_congr_left ?_
          intro i _
          rw [hg, pySlice_map]
        rw [hrw, slices_flatten b hb1 _ (texts.map g) rfl]
      simp [hfl]
  · intro client st kwargs t0 t1 t2 t3 t4 hb
    rw [APIEmbeddingModel.encode_reduction client st [t0, t1, t2, t3, t4] kwargs 2 hb
      (by omega)]
    simp [pySlice, List.range']

/-- Witness for C3 at a concrete input: batch size 2 and five texts give three
client calls with the claimed boundaries, and the stacked output preserves
input order for the sample per-text client. -/
theorem C3_witness :
    ((APIEmbeddingModel.encode sampleClient sampleApi
        (.batch (["a", "b", "c", "d", "e"].map TextUnit.str)) []).1.2
      = [(["a", "b"], 2), (["c", "d"], 2), (["e"], 2)])
    ∧ ((APIEmbeddingModel.encode sampleClient sampleApi
        (.batch (["a", "b", "c", "d", "e"].map TextUnit.str)) []).1.1
      = Except.ok (Tensor.mat (["a", "b", "c", "d", "e"].map sampleF))) :=
  ⟨C3_api_encode_batching.2 sampleClient sampleApi [] "a" "b" "c" "d" "e" rfl,
   ((C3_api_encode_batching.1 sampleClient sampleApi ["a", "b", "c", "d", "e"] [] 2
      rfl (by omega)).2.2.2.1 sampleF fun c n => rfl)⟩

theorem mapM_processTriple (prompt : String) (l : List (String × TextUnit × TextUnit)) :
    (l.map fun t => [TextUnit.str t.1, t.2.1, t.2.2]).mapM
        (CrossEncoderModel.processTriple prompt)
      = Except.ok (l.map fun t => [TextUnit.str (prompt ++ t.1), TextUnit.str t.2.1.text]) := by
  induction l with
  | nil => rfl
  | cons t ts ih => rw [List.map_cons, List.mapM_cons, ih]; rfl

/-- C4: for `CrossEncoderModel.predict` on a non-empty list whose elements are
`(query, document, instruction)` triples, the underlying cross-encoder's
predict is invoked with the pairs `(prompt + query, document)`, where a
structured document record is first replaced by its `text` field; for a list
of two-element `(query, document)` pairs, the input is passed to the
underlying predict unchanged. -/
theorem C4_cross_predict_unwrapping :
    (∀ (st : BaseModelState) (kwargs : Dict)
        (triples : List (String × TextUnit × TextUnit)),
      triples ≠ [] →
      (CrossEncoderModel.predict st
          (triples.map fun t => [TextUnit.str t.1, t.2.1, t.2.2]) kwargs).1
        = Except.ok (triples.map
            fun t => [TextUnit.str (st.prompt ++ t.1), TextUnit.str t.2.1.text]))
    ∧ (∀ (st : BaseModelState) (kwargs : Dict) (pairs : List (String × String)),
      pairs ≠ [] →
      (CrossEncoderModel.predict st
          (pairs.map fun p => [TextUnit.str p.1, TextUnit.str p.2]) kwargs).1
        = Except.ok (pairs.map fun p => [TextUnit.str p.1, TextUnit.str p.2])) := by
  constructor
  · intro st kwargs triples hne
    obtain ⟨t, ts, rfl⟩ : ∃ a l, triples = a :: l := by
      cases triples with
      | nil => exact absurd rfl hne
      | cons a l => exact ⟨a, l, rfl⟩
    have h3 : (CrossEncoderModel.predict st
        ((t :: ts).map fun t => [TextUnit.str t.1, t.2.1, t.2.2]) kwargs).1
        = ((t :: ts).map fun t => [TextUnit.str t.1, t.2.1, t.2.2]).mapM
            (CrossEncoderModel.processTriple st.prompt) := by
      simp [CrossEncoderModel.predict]
    rw [h3, mapM_processTriple]
  · intro st kwargs pairs hne
    obtain ⟨p, ps, rfl⟩ : ∃ a l, pairs = a :: l := by
      cases pairs with
      | nil => exact absurd rfl hne
      | cons a l => exact ⟨a, l, rfl⟩
    simp [CrossEncoderModel.predict]

/-- Witness for C4 at concrete inputs: one triple with a record document and a
configured prompt, and one plain pair. -/
theorem C4_witness :
    ((CrossEncoderModel.predict { sampleBase with prompt := "p" }
        [[TextUnit.str "q", TextUnit.doc (Option.some "T") "d", TextUnit.str "i"]] []).1
      = Except.ok [[TextUnit.str ("p" ++ "q"), TextUnit.str "d"]])
    ∧ ((CrossEncoderModel.predict sampleBase
        [[TextUnit.str "q", TextUnit.str "d"]] []).1
      = Except.ok [[TextUnit.str "q", TextUnit.str "d"]]) :=
  by
  constructor
  · simpa using C4_cross_predict_unwrapping.1 { sampleBase with prompt := "p" }
      [] [("q", TextUnit.doc (Option.some "T") "d", TextUnit.str "i")] (by simp)
  · simpa using C4_cross_predict_unwrapping.2 sampleBase [] [("q", "d")] (by simp)

/-- C10: for every non-empty input list to `CrossEncoderModel.predict`, the
triple-unwrapping branch is taken if and only if the first element has length
exactly 3 (and then every element, whatever its shape, is processed by the
triple rewriting, while otherwise the whole list is passed through unchanged —
the shapes of the remaining elements are never inspected for the decision);
an empty input list fails when the first element is inspected. -/
theorem C10_predict_first_element_dispatch :
    ∀ (st : BaseModelState) (kwargs : Dict),
      ((CrossEncoderModel.predict st [] kwargs).1 = Except.error PyErr.indexError)
      ∧ (∀ (s : List TextUnit) (rest : List (List TextUnit)), s.length = 3 →
          (CrossEncoderModel.predict st (s :: rest) kwargs).1
            = (s :: rest).mapM (CrossEncoderModel.processTriple st.prompt))
      ∧ (∀ (s : List TextUnit) (rest : List (List TextUnit)), s.length ≠ 3 →
          (CrossEncoderModel.predict st (s :: rest) kwargs).1 = Except.ok (s :: rest)) := by
  intro st kwargs
  refine ⟨rfl, ?_, ?_⟩
  · intro s rest h
    simp [CrossEncoderModel.predict, h]
  · intro s rest h
    simp [CrossEncoderModel.predict, h]

/-- Witness for C10 at concrete inputs: the empty list fails with `IndexError`,
and a mixed-shape list whose first element is a pair passes through unchanged
even though a later element is a triple. -/
theorem C10_witness :
    ((CrossEncoderModel.predict sampleBase [] []).1 = Except.error PyErr.indexError)
    ∧ ((CrossEncoderModel.predict sampleBase
        [[TextUnit.str "q", TextUnit.str "d"],
          [TextUnit.str "q2", TextUnit.str "d2", TextUnit.str "i2"]] []).1
      = Except.ok [[TextUnit.str "q", TextUnit.str "d"],
          [TextUnit.str "q2", TextUnit.str "d2", TextUnit.str "i2"]]) :=
  ⟨(C10_predict_first_element_dispatch sampleBase []).1,
   (C10_predict_first_element_dispatch sampleBase []).2.2 _ _ (by simp)⟩

theorem mapM_normalizeDoc (records : List (Option String × String)) :
    (records.map fun r => TextUnit.doc r.1 r.2).mapM normalizeDoc
      = Except.ok (records.map fun r => TextUnit.str (formatDoc r.1 r.2)) := by
  induction records with
  | nil => rfl
  | cons r rs ih => rw [List.map_cons, List.mapM_cons, ih]; rfl

theorem mapM_normalizeDoc_cons (a : Option String × String)
    (rs : List (Option String × String)) :
    (TextUnit.doc a.1 a.2 :: rs.map fun r => TextUnit.doc r.1 r.2).mapM normalizeDoc
      = Except.ok (TextUnit.str (formatDoc a.1 a.2)
          :: rs.map fun r => TextUnit.str (formatDoc r.1 r.2)) := by
  rw [List.mapM_cons, mapM_normalizeDoc]; rfl

/-- C6: for `SentenceTransformerModel.encode_corpus` and
`APIEmbeddingModel.encode_corpus`, a corpus of structured records is
normalised element-wise to the single string `'title text'` trimmed of
surrounding whitespace (a missing title yields just the trimmed text), so
encoding the record corpus encodes the same input, and hence produces the same
result, as encoding the corresponding strings; in particular a corpus of the
one record with title `A` and text `b` encodes exactly like the corpus
`["A b"]`. -/
theorem C6_encode_corpus_normalization :
    (∀ (f : String → List Int) (st : BaseModelState)
        (records : List (Option String × String)),
      SentenceTransformerModel.encode_corpus f st
          (records.map fun r => TextUnit.doc r.1 r.2) []
        = SentenceTransformerModel.encode_corpus f st
          (records.map fun r => TextUnit.str (formatDoc r.1 r.2)) [])
    ∧ (∀ (client : List String → Nat → List (List Int)) (st : APIEmbeddingState)
        (records : List (Option String × String)) (kwargs : Dict),
      APIEmbeddingModel.encode_corpus client st
          (records.map fun r => TextUnit.doc r.1 r.2) kwargs
        = APIEmbeddingModel.encode_corpus client st
          (records.map fun r => TextUnit.str (formatDoc r.1 r.2)) kwargs)
    ∧ (∀ (f : String → List Int) (st : BaseModelState),
      SentenceTransformerModel.encode_corpus f st [TextUnit.doc (Option.some "A") "b"] []
        = SentenceTransformerModel.encode_corpus f st [TextUnit.str "A b"] [])
    ∧ formatDoc (Option.some "A") "b" = "A b"
    ∧ formatDoc Option.none "b" = "b" := by
  refine ⟨?_, ?_, ?_, ?_, ?_⟩
  · intro f st records
    cases records with
    | nil => rfl
    | cons r rs =>
      simp only [List.map_cons, SentenceTransformerModel.encode_corpus,
        mapM_normalizeDoc_cons]
  · intro client st records kwargs
    cases records with
    | nil => rfl
    | cons r rs =>
      simp only [List.map_cons, APIEmbeddingModel.encode_corpus,
        mapM_normalizeDoc_cons]
  · intro f st
    rfl
  · rfl
  · rfl



/-- Counterexample to C5 as stated: for the remote adapter with an empty
configured prompt, `embed_query(t)` is not `embed_documents([t])[0]` — the
remote encode path wraps even a single query into a one-element batch, so
`embed_query` returns a singleton nested list while `embed_documents([t])[0]`
is the flat vector. -/
theorem C5_counterexample :
    APIEmbeddingModel.embed_query sampleClient sampleApi "a"
      ≠ (APIEmbeddingModel.embed_documents sampleClient sampleApi ["a"]).bind
          fun o => pyIndex o 0 := by
  intro h
  have h1 : APIEmbeddingModel.embed_query sampleClient sampleApi "a"
      = Except.ok (PyObj.lst [PyObj.lst [PyObj.num 1]]) := rfl
  have h2 : ((APIEmbeddingModel.embed_documents sampleClient sampleApi ["a"]).bind
      fun o => pyIndex o 0) = Except.ok (PyObj.lst [PyObj.num 1]) := rfl
  rw [h1, h2] at h
  simp at h

/-- C5 as amended: for the bi-encoder with an empty configured prompt and a
deterministic underlying model, `embed_query(t)` equals
`embed_documents([t])[0]`; with a non-empty prompt the two may disagree,
because `embed_query` routes through `encode_queries`, which applies the
prompt, while `embed_documents` routes through `encode_corpus`, which does
not.  The remote adapter never applies the prompt on either path, and its
`embed_query(t)` equals `embed_documents([t])` as a whole (the one-element
batch), not its first element. -/
theorem C5_embed_query_vs_documents :
    (∀ (f : String → List Int) (st : BaseModelState) (t : String),
      st.prompt = "" →
      SentenceTransformerModel.embed_query f st t
        = (SentenceTransformerModel.embed_documents f st [t]).bind fun o => pyIndex o 0)
    ∧ (∃ (f : String → List Int) (st : BaseModelState) (t : String),
      st.prompt ≠ ""
      ∧ SentenceTransformerModel.embed_query f st t
          ≠ (SentenceTransformerModel.embed_documents f st [t]).bind fun o => pyIndex o 0)
    ∧ (∀ (client : List String → Nat → List (List Int)) (st : APIEmbeddingState)
        (t : String),
      APIEmbeddingModel.embed_query client st t
        = APIEmbeddingModel.embed_documents client st [t]) := by
  refine ⟨?_, ?_, ?_⟩
  · intro f st t h
    obtain ⟨mnp, msl, pr, rev, mk, ck, ek⟩ := st
    simp only at h
    subst h
    rfl
  · refine ⟨sampleF, { sampleBase with prompt := "p" }, "a", by simp, ?_⟩
    intro h
    have h1 : SentenceTransformerModel.embed_query sampleF
        { sampleBase with prompt := "p" } "a"
        = Except.ok (PyObj.lst [PyObj.num 2]) := rfl
    have h2 : ((SentenceTransformerModel.embed_documents sampleF
        { sampleBase with prompt := "p" } ["a"]).bind fun o => pyIndex o 0)
        = Except.ok (PyObj.lst [PyObj.num 1]) := rfl
    rw [h1, h2] at h
    simp at h
  · intro client st t
    rfl

/-- Witness for the amended C5 at concrete inputs: the bi-encoder equality
with an empty prompt, and the remote whole-batch equality. -/
theorem C5_witness :
    (SentenceTransformerModel.embed_query sampleF sampleBase "a"
      = (SentenceTransformerModel.embed_documents sampleF sampleBase ["a"]).bind
          fun o => pyIndex o 0)
    ∧ (APIEmbeddingModel.embed_query sampleClient sampleApi "a"
      = APIEmbeddingModel.embed_documents sampleClient sampleApi ["a"]) :=
  ⟨C5_embed_query_vs_documents.1 sampleF sampleBase "a" rfl,
   C5_embed_query_vs_documents.2.2 sampleClient sampleApi "a"⟩

/-- Counterexample to C9 as stated: the remote adapter's `encode` accepts
extra keyword options but never merges them into the stored encode-option
mapping — the adapter state is returned unchanged and the extra key is absent
afterwards. -/
theorem C9_counterexample :
    (APIEmbeddingModel.encode sampleClient sampleApi (.batch [])
        [("foo", PyVal.int 1)]).2 = sampleApi
    ∧ dictGet ((APIEmbeddingModel.encode sampleClient sampleApi (.batch [])
        [("foo", PyVal.int 1)]).2).base.encode_kwargs "foo" = Option.none :=
  ⟨rfl, rfl⟩

/-- C9 as amended: the bi-encoder's `encode` and the cross-encoder's `predict`
merge call-time extra options into the instance's stored encode-option mapping
(the bi-encoder first strips the `prompt_name` key from the extras), the
merged binding wins on key conflict and persists on the returned adapter
state, so subsequent calls start from the merged mapping; the remote adapter's
`encode` ignores its extra keyword options and leaves the state unchanged. -/
theorem C9_encode_kwargs_merge :
    (∀ (f : String → List Int) (st : BaseModelState) (texts : TextsInput)
        (prompt : Option String) (kwargs : Dict),
      (SentenceTransformerModel.encode f st texts prompt kwargs).2.encode_kwargs
        = dictUpdate st.encode_kwargs (dictPop kwargs "prompt_name"))
    ∧ (∀ (st : BaseModelState) (sentences : List (List TextUnit)) (kwargs : Dict),
      (CrossEncoderModel.predict st sentences kwargs).2.encode_kwargs
        = dictUpdate st.encode_kwargs kwargs)
    ∧ (∀ (client : List String → Nat → List (List Int)) (st : APIEmbeddingState)
        (texts : TextsInput) (kwargs : Dict),
      (APIEmbeddingModel.encode client st texts kwargs).2 = st)
    ∧ (∀ (d ex : Dict) (k : String) (v : PyVal),
      dictGet ex k = Option.some v → (dictKeys ex).Nodup →
      dictGet (dictUpdate d ex) k = Option.some v) := by
  refine ⟨?_, ?_, ?_, ?_⟩
  · intro f st texts prompt kwargs
    rfl
  · intro st sentences kwargs
    rfl
  · intro client st texts kwargs
    cases texts with
    | single s =>
      simp only [APIEmbeddingModel.encode]
      split
      · rfl
      · split <;> rfl
    | batch us =>
      simp only [APIEmbeddingModel.encode]
      rcases h : us.mapM remoteText with e | l
      · simp only [h]
      · simp only [h]
        split
        · rfl
        · split <;> rfl
  · intro d ex k v hget hnd
    exact dictGet_dictUpdate_mem ex k v hnd hget d

/-- Witness for the amended C9 at concrete inputs: the cross-encoder's merge
of one extra option persists on the returned state, and the stored merged
mapping yields the extra option's value. -/
theorem C9_witness :
    ((CrossEncoderModel.predict sampleBase [[TextUnit.str "q", TextUnit.str "d"]]
        [("k", PyVal.int 1)]).2).encode_kwargs
      = dictUpdate sampleBase.encode_kwargs [("k", PyVal.int 1)]
    ∧ dictGet (dictUpdate sampleBase.encode_kwargs [("k", PyVal.int 1)]) "k"
      = Option.some (PyVal.int 1) :=
  ⟨C9_encode_kwargs_merge.2.1 sampleBase [[TextUnit.str "q", TextUnit.str "d"]]
      [("k", PyVal.int 1)],
   C9_encode_kwargs_merge.2.2.2 sampleBase.encode_kwargs [("k", PyVal.int 1)] "k"
      (PyVal.int 1) rfl (by simp [dictKeys])⟩

end Evalscope
